import Mathlib

/-!
Verification of the tachometer subsystem of `src/read_motor_status.py`
(`MotorSpeedReader` and `RPMFilter`).  The Python code is shallowly
embedded: Python floats become exact rationals, the two bounded
`collections.deque` buffers become lists with an evicting append, and each
thread body (`_pulse_callback`, `_calculate_rpm`, `_monitor_stopped`)
becomes a pure state-transition function parameterised by the clock value
the Python code reads from `time.perf_counter()`.
-/

namespace ReadMotorStatus

/-- Append of a `collections.deque` with a maximum length: push `x` on the
right and evict from the left whenever the length would exceed `maxlen`. -/
def dequeAppend (maxlen : ℕ) (xs : List ℚ) (x : ℚ) : List ℚ :=
  let ys := xs ++ [x]
  if maxlen < ys.length then ys.drop (ys.length - maxlen) else ys

/-- Configuration fixed by `MotorSpeedReader.__init__` (lines 26-50):
raw parameters together with the derived frequency and interval bounds. -/
structure MotorConfig where
  encoder_ppr : ℚ
  min_rpm : ℚ
  max_rpm : ℚ
  min_freq : ℚ
  max_freq : ℚ
  min_interval : ℚ
  max_interval : ℚ
deriving DecidableEq

/-- Low-speed threshold in RPM (`self.low_speed_threshold = 100`). -/
def low_speed_threshold : ℚ := 100

/-- Stall timeout in seconds (`self.stopped_timeout = 2.0`). -/
def stopped_timeout : ℚ := 2

/-- Derivation of the configuration from the constructor arguments,
following `__init__` literally: `min_freq = min_rpm*ppr/60`,
`max_freq = max_rpm*ppr/60`, `min_interval = 1/max_freq` when
`max_freq > 0` else `0.0001`, and `max_interval = 1/max(min_freq,1)` when
`min_freq > 0` else `1.0`. -/
def mkMotorConfig (encoder_ppr min_rpm max_rpm : ℚ) : MotorConfig :=
  let min_freq := min_rpm * encoder_ppr / 60
  let max_freq := max_rpm * encoder_ppr / 60
  { encoder_ppr := encoder_ppr
    min_rpm := min_rpm
    max_rpm := max_rpm
    min_freq := min_freq
    max_freq := max_freq
    min_interval := if 0 < max_freq then 1 / max_freq else 1 / 10000
    max_interval := if 0 < min_freq then 1 / max min_freq 1 else 1 }

/-- Mutable state of a `MotorSpeedReader`: the two bounded buffers (most
recent element last), the last pulse timestamp and the current RPM. -/
structure MotorState where
  pulse_intervals : List ℚ
  rpm_history : List ℚ
  last_pulse_time : ℚ
  current_rpm : ℚ
deriving DecidableEq

/-- State right after `__init__`: empty buffers, `last_pulse_time = 0`,
`current_rpm = 0.0`. -/
def initMotorState : MotorState :=
  { pulse_intervals := [], rpm_history := [], last_pulse_time := 0, current_rpm := 0 }

/-- Error type named by the specification for construction-time
validation failures. -/
inductive ConfigurationError
  | configurationError
deriving DecidableEq

/-- Construction of a reader (`__init__`, lines 16-57).  The Python body is
straight-line: it stores the parameters, derives the bounds and initialises
the buffers; it contains no parameter validation, so no
`ConfigurationError` path exists.  (GPIO setup, which can only fail when
the hardware library is missing, is outside the embedded subsystem.)  The `Except` result type models the possibility of a Python
exception escaping the constructor. -/
def initMotorSpeedReader (encoder_ppr min_rpm max_rpm : ℚ) :
    Except ConfigurationError (MotorConfig × MotorState) :=
  Except.ok (mkMotorConfig encoder_ppr min_rpm max_rpm, initMotorState)

/-- Pulse-edge callback `_pulse_callback` (lines 73-89) at clock value `t`:
when a previous pulse exists (`last_pulse_time > 0`) the new interval is
appended to `pulse_intervals` if `min_interval ≤ interval ≤ max_interval`,
or else if `max_interval < interval < stopped_timeout`; in every case
`last_pulse_time` becomes `t`. -/
def pulse_callback (cfg : MotorConfig) (t : ℚ) (s : MotorState) : MotorState :=
  let s1 :=
    if 0 < s.last_pulse_time then
      let interval := t - s.last_pulse_time
      if cfg.min_interval ≤ interval ∧ interval ≤ cfg.max_interval then
        { s with pulse_intervals := dequeAppend 50 s.pulse_intervals interval }
      else if cfg.max_interval < interval then
        if interval < stopped_timeout then
          { s with pulse_intervals := dequeAppend 50 s.pulse_intervals interval }
        else s
      else s
    else s
  { s1 with last_pulse_time := t }

/-- Sorting as done by Python `sorted` / internally by `statistics.median`
and `np.percentile` (ascending order). -/
def pysorted (xs : List ℚ) : List ℚ :=
  List.insertionSort (· ≤ ·) xs

/-- Linearly interpolated percentile of an already sorted sample, the
default method of `np.percentile`: the virtual index is `p*(n-1)/100`, and
the value is interpolated between the two neighbouring order statistics. -/
def percentileOfSorted (a : List ℚ) (p : ℚ) : ℚ :=
  let n : ℚ := (a.length : ℚ)
  let idx : ℚ := p * (n - 1) / 100
  let i : ℕ := (Int.floor idx).toNat
  let frac : ℚ := idx - (Int.floor idx : ℤ)
  let lo := a.getD i 0
  let hi := a.getD (i + 1) lo
  lo + frac * (hi - lo)

/-- Python `statistics.median`: sort, take the middle element for odd
length and the average of the two middle elements for even length. -/
def pymedian (xs : List ℚ) : ℚ :=
  let s := pysorted xs
  let n := s.length
  if n % 2 = 1 then s.getD (n / 2) 0
  else (s.getD (n / 2 - 1) 0 + s.getD (n / 2) 0) / 2

/-- Python `statistics.mean` on rationals. -/
def pymean (xs : List ℚ) : ℚ :=
  xs.sum / (xs.length : ℚ)

/-- Interquartile outlier fence shared by lines 136-143 of
`_calculate_rpm` and by the specification's step 3, both of which state
the identical rule: compute the linearly interpolated 25th and 75th
percentiles `q1` and `q3` of the (sorted) window and keep exactly the
values inside `[q1 - 1.5*(q3-q1), q3 + 1.5*(q3-q1)]`, in window order. -/
def iqrFilter (w : List ℚ) : List ℚ :=
  let q1 := percentileOfSorted (pysorted w) 25
  let q3 := percentileOfSorted (pysorted w) 75
  let iqr := q3 - q1
  w.filter (fun x => decide (q1 - 3/2 * iqr ≤ x ∧ x ≤ q3 + 3/2 * iqr))

/-- One iteration of the estimator loop body `_calculate_rpm`
(lines 118-167) at clock value `now`: with at least 3 buffered intervals,
work on the most recent 10 (all when fewer), apply IQR outlier rejection
when the window has at least 5 elements (keeping the original window when
filtering would empty it), take the median interval, convert to RPM and
accept the sample only inside `[min_rpm, max_rpm]`; with fewer than 3
intervals, force `current_rpm = 0` when the buffer is empty and the last
pulse is older than the stall timeout. -/
def calculate_rpm (cfg : MotorConfig) (now : ℚ) (s : MotorState) : MotorState :=
  if 3 ≤ s.pulse_intervals.length then
    let intervals := s.pulse_intervals
    let recent_intervals :=
      if 10 ≤ intervals.length then intervals.drop (intervals.length - 10) else intervals
    let recent_intervals2 :=
      if 5 ≤ recent_intervals.length then
        let filtered_intervals := iqrFilter recent_intervals
        if filtered_intervals ≠ [] then filtered_intervals else recent_intervals
      else recent_intervals
    if recent_intervals2 ≠ [] then
      let median_interval := pymedian recent_intervals2
      let frequency := 1 / median_interval
      let rpm := frequency * 60 / cfg.encoder_ppr
      if cfg.min_rpm ≤ rpm ∧ rpm ≤ cfg.max_rpm then
        { s with current_rpm := rpm, rpm_history := dequeAppend 100 s.rpm_history rpm }
      else s
    else s
  else
    if s.pulse_intervals.length = 0 ∧ stopped_timeout < now - s.last_pulse_time then
      { s with current_rpm := 0 }
    else s

/-- One iteration of the stall-monitor loop body `_monitor_stopped`
(lines 169-182) at clock value `now`: when a pulse has been seen and the
time since it exceeds the stall timeout, zero the RPM and clear the
interval buffer. -/
def monitor_stopped (now : ℚ) (s : MotorState) : MotorState :=
  if 0 < s.last_pulse_time ∧ stopped_timeout < now - s.last_pulse_time then
    { s with current_rpm := 0, pulse_intervals := [] }
  else s

/-- Stability score `_calculate_stability` (lines 213-226), parameterised
by `std_rpm`, the value of `statistics.stdev(rpm_values)` (the square root
of the sample variance, which is irrational in general and therefore
passed as an argument): windows shorter than 5 score `0.0`, otherwise for
positive mean the score is `min(100, max(0, 100 - std/mean*100))`, and for
non-positive mean it is `0.0`. -/
def calculate_stability (rpm_values : List ℚ) (std_rpm : ℚ) : ℚ :=
  if rpm_values.length < 5 then 0
  else
    let mean_rpm := pymean rpm_values
    if 0 < mean_rpm then
      let cv := std_rpm / mean_rpm * 100
      min 100 (max 0 (100 - cv))
    else 0

/-- Status classification `_get_motor_status` (lines 228-237). -/
def get_motor_status (cfg : MotorConfig) (s : MotorState) : String :=
  if s.current_rpm = 0 then "Stopped"
  else if s.current_rpm < low_speed_threshold then "Low Speed"
  else if cfg.max_rpm * (9 / 10) < s.current_rpm then "High Speed"
  else "Normal"

/-- Result of `get_detailed_stats`: the reduced dictionary returned for
fewer than 3 history samples, or the full dictionary. -/
inductive StatsResult
  | reduced (current_rpm : ℚ) (samples : ℕ) (stat : String)
  | full (current_rpm avg_rpm median_rpm std_rpm min_rpm max_rpm : ℚ)
      (samples : ℕ) (pulse_frequency stability_percent : ℚ) (stat : String)
deriving DecidableEq

/-- Status field of either form of `get_detailed_stats` result. -/
def StatsResult.statusOf : StatsResult → String
  | .reduced _ _ st => st
  | .full _ _ _ _ _ _ _ _ _ st => st

/-- Pulse-frequency field, present only in the full form. -/
def StatsResult.pulseFrequencyOf : StatsResult → Option ℚ
  | .reduced _ _ _ => none
  | .full _ _ _ _ _ _ _ pf _ _ => some pf

/-- Snapshot `get_detailed_stats` (lines 188-211), parameterised by
`std_rpm = statistics.stdev(recent_rpms)` as in `calculate_stability`:
with fewer than 3 history samples only `current_rpm`, the sample count and
a coarse status are returned; otherwise the statistics of the most recent
20 history entries, with `pulse_frequency = current_rpm*ppr/60`. -/
def get_detailed_stats (cfg : MotorConfig) (s : MotorState) (std_rpm : ℚ) : StatsResult :=
  if s.rpm_history.length < 3 then
    StatsResult.reduced s.current_rpm s.rpm_history.length
      (if 0 < s.current_rpm then "Initializing" else "Stopped")
  else
    let recent_rpms := s.rpm_history.drop (s.rpm_history.length - 20)
    StatsResult.full s.current_rpm (pymean recent_rpms) (pymedian recent_rpms)
      (if 1 < recent_rpms.length then std_rpm else 0)
      ((pysorted recent_rpms).getD 0 0)
      ((pysorted recent_rpms).getD (recent_rpms.length - 1) 0)
      recent_rpms.length
      (s.current_rpm * cfg.encoder_ppr / 60)
      (calculate_stability recent_rpms std_rpm)
      (get_motor_status cfg s)

/-- Which callback occupies the GPIO event slot. -/
inductive Callback
  | pulseCb
  | calibrationCb
deriving DecidableEq

/-- Python exceptions relevant to `calibrate_encoder_ppr`. -/
inductive PyError
  | zeroDivision
  | calibrationError
deriving DecidableEq

/-- Calibration `calibrate_encoder_ppr` (lines 239-272), with the
environment-supplied measurements made explicit: `pulse_count` pulses were
counted and `actual_time` seconds elapsed.  The body swaps the event
callback for the counter, sleeps, restores the pulse callback
(lines 259-261) and only then computes
`calculated_ppr = pulse_count*60/(known_rpm*actual_time)` — which in
Python raises `ZeroDivisionError` exactly when the denominator is zero.
The result pairs the callback left installed with the outcome. -/
def calibrate_encoder_ppr (known_rpm : ℚ) (pulse_count : ℕ) (actual_time : ℚ) :
    Callback × Except PyError ℚ :=
  let slot := Callback.calibrationCb
  let slot2 := Callback.pulseCb
  let _ := slot
  ( slot2,
    if known_rpm * actual_time = 0 then Except.error PyError.zeroDivision
    else Except.ok ((pulse_count : ℚ) * 60 / (known_rpm * actual_time)) )

/-- State of an `RPMFilter` (lines 300-327). -/
structure RPMFilter where
  alpha : ℚ
  deadband : ℚ
  filtered_rpm : ℚ
  last_raw_rpm : ℚ
deriving DecidableEq

/-- Fresh filter from `RPMFilter.__init__`: both stored values start at
`0.0`. -/
def RPMFilter.mkInit (alpha deadband : ℚ) : RPMFilter :=
  { alpha := alpha, deadband := deadband, filtered_rpm := 0, last_raw_rpm := 0 }

/-- One call of `RPMFilter.filter` (lines 314-327): deadband substitution
first, then the `filtered_rpm == 0` branch taking the raw value and the
nonzero branch doing exponential smoothing; returns the smoothed value and
the updated filter. -/
def RPMFilter.filter (f : RPMFilter) (raw_rpm : ℚ) : ℚ × RPMFilter :=
  let raw := if |raw_rpm - f.last_raw_rpm| < f.deadband then f.last_raw_rpm else raw_rpm
  let filtered := if f.filtered_rpm = 0 then raw else f.alpha * raw + (1 - f.alpha) * f.filtered_rpm
  (filtered, { f with filtered_rpm := filtered, last_raw_rpm := raw })

/-- Filter state after `n` successive calls `filter(r)` starting from `f`. -/
def RPMFilter.runConstant (f : RPMFilter) (r : ℚ) : ℕ → RPMFilter
  | 0 => f
  | n + 1 => ((f.runConstant r n).filter r).2

/-- Reference definition of one estimator tick, written from the
specification's own words: take the most recent 10 intervals (or all if
fewer); if that window has at least 5 elements compute the 25th and 75th
linearly interpolated percentiles `q1` and `q3` and drop values outside
`[q1 - 1.5*(q3-q1), q3 + 1.5*(q3-q1)]` unless that would empty the window
(then keep the original window); take the median of the final window and
set `rpm = (1/median)*60/ppr`; `current_rpm` is set to `rpm` and `rpm`
appended to the RPM history iff `rpm_min ≤ rpm ≤ rpm_max`, and on
rejection `current_rpm` is left unchanged. -/
def estimatorTickSpec (cfg : MotorConfig) (s : MotorState) : MotorState :=
  let window0 := s.pulse_intervals.drop (s.pulse_intervals.length - 10)
  let window :=
    if 5 ≤ window0.length then
      let kept := iqrFilter window0
      if kept = [] then window0 else kept
    else window0
  let rpm := (1 / pymedian window) * 60 / cfg.encoder_ppr
  if cfg.min_rpm ≤ rpm ∧ rpm ≤ cfg.max_rpm then
    { s with current_rpm := rpm, rpm_history := dequeAppend 100 s.rpm_history rpm }
  else s

/-- Reference definition of the stability score, written from the
specification's own words: `clamp(100 - cv, 0, 100)` with
`cv = 100*stdev/mean`, and `cv = 0` when the mean is `0`. -/
def stabilitySpec (rpm_values : List ℚ) (std_rpm : ℚ) : ℚ :=
  let m := pymean rpm_values
  let cv := if m = 0 then 0 else 100 * std_rpm / m
  max 0 (min 100 (100 - cv))

/-- The operations that touch the shared reader state: a pulse edge at
time `t`, one estimator tick at time `now`, one stall-monitor tick at time
`now`, a statistics read, and a consumer-side filter call (the last two
read but never change reader state). -/
inductive Op
  | pulse (t : ℚ)
  | estimate (now : ℚ)
  | monitorTick (now : ℚ)
  | readStats
  | filterCall (raw : ℚ)

/-- Effect of each operation on the shared reader state. -/
def step (cfg : MotorConfig) (op : Op) (s : MotorState) : MotorState :=
  match op with
  | .pulse t => pulse_callback cfg t s
  | .estimate now => calculate_rpm cfg now s
  | .monitorTick now => monitor_stopped now s
  | .readStats => s
  | .filterCall _ => s

/-- The state invariant: bounded buffers and `current_rpm` either exactly
zero or inside the configured RPM range. -/
def MotorInv (cfg : MotorConfig) (s : MotorState) : Prop :=
  s.pulse_intervals.length ≤ 50 ∧ s.rpm_history.length ≤ 100 ∧
    (s.current_rpm = 0 ∨ (cfg.min_rpm ≤ s.current_rpm ∧ s.current_rpm ≤ cfg.max_rpm))

instance (cfg : MotorConfig) (s : MotorState) : Decidable (MotorInv cfg s) := by
  unfold MotorInv
  infer_instance

/-- Length bound of the evicting deque append: the result never exceeds
the maximum length. -/
theorem dequeAppend_length_le (maxlen : ℕ) (xs : List ℚ) (x : ℚ) :
    (dequeAppend maxlen xs x).length ≤ maxlen := by
  unfold dequeAppend
  dsimp only
  split
  · rename_i h
    simp only [List.length_drop, List.length_append, List.length_cons, List.length_nil]
    omega
  · rename_i h
    simp only [not_lt] at h
    exact h

/-- Claim C3: on every pulse callback at timestamp `t`, the interval
`d = t - last_pulse_time` is appended to the interval buffer exactly when
a previous pulse exists (`last_pulse_time > 0`) and either
`min_interval ≤ d ≤ max_interval` or `max_interval < d < stall_timeout`;
otherwise the buffer is unchanged (in particular nothing is appended when
`last_pulse_time = 0`); and `last_pulse_time` is always updated to `t`. -/
theorem pulse_callback_characterization (cfg : MotorConfig) (t : ℚ) (s : MotorState) :
    pulse_callback cfg t s =
      { s with
        last_pulse_time := t
        pulse_intervals :=
          if 0 < s.last_pulse_time ∧
              ((cfg.min_interval ≤ t - s.last_pulse_time ∧
                  t - s.last_pulse_time ≤ cfg.max_interval) ∨
                (cfg.max_interval < t - s.last_pulse_time ∧
                  t - s.last_pulse_time < stopped_timeout))
          then dequeAppend 50 s.pulse_intervals (t - s.last_pulse_time)
          else s.pulse_intervals } := by
  unfold pulse_callback
  dsimp only
  split_ifs <;> first | rfl | tauto

/-- Claim C4: whenever the stall monitor ticks at time `now` with
`last_pulse_time > 0` and `now - last_pulse_time > stall_timeout`, the
resulting state has `current_rpm = 0` and an empty interval buffer; and
whenever `current_rpm = 0`, the status field of `get_detailed_stats` is
`"Stopped"`. -/
theorem stall_zeroes_rpm_and_status (cfg : MotorConfig) (now : ℚ) (s : MotorState)
    (std_rpm : ℚ) :
    (0 < s.last_pulse_time → stopped_timeout < now - s.last_pulse_time →
      (monitor_stopped now s).current_rpm = 0 ∧
        (monitor_stopped now s).pulse_intervals = []) ∧
    (s.current_rpm = 0 →
      (get_detailed_stats cfg s std_rpm).statusOf = "Stopped") := by
  constructor
  · intro h1 h2
    unfold monitor_stopped
    rw [if_pos ⟨h1, h2⟩]
    exact ⟨rfl, rfl⟩
  · intro h0
    unfold get_detailed_stats
    split
    · simp [StatsResult.statusOf, h0]
    · simp [StatsResult.statusOf, get_motor_status, h0]

/-- Witness for C4 at a concrete stalled state: last pulse at time 1,
monitor tick at time 4, current RPM zero. -/
theorem stall_zeroes_rpm_and_status_witness :
    ((monitor_stopped 4
        { pulse_intervals := [1/100], rpm_history := [], last_pulse_time := 1,
          current_rpm := 0 }).current_rpm = 0 ∧
      (monitor_stopped 4
        { pulse_intervals := [1/100], rpm_history := [], last_pulse_time := 1,
          current_rpm := 0 }).pulse_intervals = []) ∧
    (get_detailed_stats (mkMotorConfig 1000 0 6000)
        { pulse_intervals := [1/100], rpm_history := [], last_pulse_time := 1,
          current_rpm := 0 } 0).statusOf = "Stopped" := by
  have h := stall_zeroes_rpm_and_status (mkMotorConfig 1000 0 6000) 4
    { pulse_intervals := [1/100], rpm_history := [], last_pulse_time := 1,
      current_rpm := 0 } 0
  exact ⟨h.1 (by norm_num) (by norm_num [stopped_timeout]), h.2 rfl⟩

/-- Claim C10: with at least 3 RPM-history samples, the pulse-frequency
field of `get_detailed_stats` equals `current_rpm * encoder_ppr / 60`,
derived from the reported RPM rather than from the buffered intervals. -/
theorem pulse_frequency_from_current_rpm (cfg : MotorConfig) (s : MotorState)
    (std_rpm : ℚ) (h : 3 ≤ s.rpm_history.length) :
    (get_detailed_stats cfg s std_rpm).pulseFrequencyOf =
      some (s.current_rpm * cfg.encoder_ppr / 60) := by
  unfold get_detailed_stats
  rw [if_neg (by omega)]
  rfl

/-- Witness for C10 at a concrete state with three history samples. -/
theorem pulse_frequency_from_current_rpm_witness :
    (get_detailed_stats (mkMotorConfig 1000 0 6000)
        { pulse_intervals := [], rpm_history := [5, 6, 7], last_pulse_time := 0,
          current_rpm := 5 } 0).pulseFrequencyOf = some ((5 : ℚ) * 1000 / 60) :=
  pulse_frequency_from_current_rpm (mkMotorConfig 1000 0 6000)
    { pulse_intervals := [], rpm_history := [5, 6, 7], last_pulse_time := 0,
      current_rpm := 5 } 0 (by decide)

/-- Counterexample to claim C7: constructing a reader with
`pulses_per_rev = -1` (which is `≤ 0`) succeeds and produces a reader
object; no `ConfigurationError` is raised, contradicting the claim that
construction must fail. -/
theorem init_no_validation_cex :
    ((-1 : ℚ) ≤ 0) ∧ (initMotorSpeedReader (-1) 0 6000).isOk = true :=
  ⟨by norm_num, rfl⟩

/-- Claim C7 as amended: `__init__` performs no parameter validation, so
construction with `pulses_per_rev ≤ 0`, or `rpm_min ≥ rpm_max`, or
`rpm_min < 0` still succeeds and produces a reader object (it never fails
with a `ConfigurationError`). -/
theorem init_accepts_invalid_params (ppr rpm_min rpm_max : ℚ)
    (_h : ppr ≤ 0 ∨ rpm_max ≤ rpm_min ∨ rpm_min < 0) :
    (initMotorSpeedReader ppr rpm_min rpm_max).isOk = true := rfl

/-- Witness for the amended C7 at `ppr = -1`. -/
theorem init_accepts_invalid_params_witness :
    (((-1 : ℚ) ≤ 0 ∨ (6000 : ℚ) ≤ 0 ∨ (0 : ℚ) < 0) ∧
      (initMotorSpeedReader (-1) 0 6000).isOk = true) :=
  ⟨Or.inl (by norm_num),
    init_accepts_invalid_params (-1) 0 6000 (Or.inl (by norm_num))⟩

/-- Counterexample to claim C6: calibration with `known_rpm = -100 ≤ 0`
returns the value `-100` instead of failing with a `CalibrationError`,
and calibration with zero counted pulses returns the value `0` instead of
failing with a `CalibrationError`. -/
theorem calibrate_no_validation_cex :
    (calibrate_encoder_ppr (-100) 500 3).2 = Except.ok (-100) ∧
      (calibrate_encoder_ppr 100 0 3).2 = Except.ok 0 := by
  constructor <;> norm_num [calibrate_encoder_ppr]

/-- Claim C6 as amended: `calibrate_encoder_ppr` performs no validation.
With elapsed time `actual_time > 0`: for `known_rpm < 0` it returns the
(non-positive) value `pulse_count*60/(known_rpm*actual_time)`; for
`known_rpm = 0` it raises `ZeroDivisionError` (not a `CalibrationError`);
for `known_rpm > 0` and zero counted pulses it returns `0`.  In every
case the original pulse callback is restored (the restoration at
lines 259-261 precedes the computation, so it happens on the failure
paths as well). -/
theorem calibrate_behavior (known_rpm : ℚ) (pulse_count : ℕ) (actual_time : ℚ)
    (ht : 0 < actual_time) :
    (calibrate_encoder_ppr known_rpm pulse_count actual_time).1 = Callback.pulseCb ∧
    (known_rpm < 0 →
      (calibrate_encoder_ppr known_rpm pulse_count actual_time).2 =
        Except.ok ((pulse_count : ℚ) * 60 / (known_rpm * actual_time)) ∧
      (pulse_count : ℚ) * 60 / (known_rpm * actual_time) ≤ 0) ∧
    (known_rpm = 0 →
      (calibrate_encoder_ppr known_rpm pulse_count actual_time).2 =
        Except.error PyError.zeroDivision) ∧
    (0 < known_rpm → pulse_count = 0 →
      (calibrate_encoder_ppr known_rpm pulse_count actual_time).2 = Except.ok 0) := by
  refine ⟨rfl, ?_, ?_, ?_⟩
  · intro hk
    have hne : known_rpm * actual_time ≠ 0 := by
      have : known_rpm * actual_time < 0 := mul_neg_of_neg_of_pos hk ht
      exact ne_of_lt this
    constructor
    · unfold calibrate_encoder_ppr
      simp [hne]
    · apply div_nonpos_of_nonneg_of_nonpos
      · positivity
      · exact le_of_lt (mul_neg_of_neg_of_pos hk ht)
  · intro hk
    unfold calibrate_encoder_ppr
    simp [hk]
  · intro hk hc
    have hne : known_rpm * actual_time ≠ 0 :=
      ne_of_gt (mul_pos hk ht)
    unfold calibrate_encoder_ppr
    simp [hne, hc]

/-- Witness for the amended C6 at `known_rpm = -100`, 500 pulses,
3 seconds. -/
theorem calibrate_behavior_witness :
    (calibrate_encoder_ppr (-100) 500 3).1 = Callback.pulseCb ∧
    ((-100 : ℚ) < 0 →
      (calibrate_encoder_ppr (-100) 500 3).2 =
        Except.ok (((500 : ℕ) : ℚ) * 60 / ((-100) * 3)) ∧
      ((500 : ℕ) : ℚ) * 60 / ((-100) * 3) ≤ 0) ∧
    ((-100 : ℚ) = 0 →
      (calibrate_encoder_ppr (-100) 500 3).2 = Except.error PyError.zeroDivision) ∧
    (0 < (-100 : ℚ) → (500 : ℕ) = 0 →
      (calibrate_encoder_ppr (-100) 500 3).2 = Except.ok 0) :=
  calibrate_behavior (-100) 500 3 (by norm_num)

/-- Counterexample to claim C5: on a fresh filter (`alpha = 1/10`,
`deadband = 5`) the sequence of calls `filter(0)` then `filter(100)` has
the second — hence later — call return `100` (the raw value), not the
claimed `alpha*raw + (1-alpha)*previous_filtered = 10`: the code branches
on `filtered_rpm == 0`, not on whether the call is the first one. -/
theorem filter_first_call_cex :
    (((RPMFilter.mkInit (1/10) 5).filter 0).2.filter 100).1 = 100 ∧
      (100 : ℚ) ≠ 1/10 * 100 + (1 - 1/10) * 0 := by
  constructor
  · norm_num [RPMFilter.mkInit, RPMFilter.filter]
  · norm_num

/-- Claim C5 as amended: each `RPMFilter.filter(raw_rpm)` call first
substitutes `raw := last_raw_rpm` when `|raw_rpm - last_raw_rpm| <
deadband`; the result is the substituted `raw` whenever the stored
`filtered_rpm` is `0` (which includes, but is not limited to, the first
call of a fresh instance), and `alpha*raw + (1-alpha)*filtered_rpm`
whenever the stored `filtered_rpm` is nonzero; `last_raw_rpm` is updated
to the substituted `raw` on every call. -/
theorem filter_call_characterization (f : RPMFilter) (raw_rpm raw : ℚ)
    (hraw : raw =
      if |raw_rpm - f.last_raw_rpm| < f.deadband then f.last_raw_rpm else raw_rpm) :
    (f.filter raw_rpm).2.last_raw_rpm = raw ∧
    (f.filter raw_rpm).1 =
      (if f.filtered_rpm = 0 then raw
        else f.alpha * raw + (1 - f.alpha) * f.filtered_rpm) := by
  subst hraw
  exact ⟨rfl, rfl⟩

/-- Witness for the amended C5 on a filter with nonzero stored value. -/
theorem filter_call_characterization_witness :
    ((RPMFilter.mk (1/10) 5 50 30).filter 100).2.last_raw_rpm = 100 ∧
    ((RPMFilter.mk (1/10) 5 50 30).filter 100).1 =
      (if (50 : ℚ) = 0 then 100 else 1/10 * 100 + (1 - 1/10) * 50) :=
  filter_call_characterization (RPMFilter.mk (1/10) 5 50 30) 100 100 (by norm_num)

/-- Counterexample to claim C8: the window `[100, 100, 100]` has 3
samples (so `get_detailed_stats` computes its stability) and standard
deviation exactly `0`; the reference formula gives
`clamp(100 - 0, 0, 100) = 100`, but `_calculate_stability` returns `0`
because it short-circuits every window shorter than 5 samples. -/
theorem stability_small_window_cex :
    calculate_stability [100, 100, 100] 0 = 0 ∧
      stabilitySpec [100, 100, 100] 0 = 100 ∧ (0 : ℚ) ≠ 100 := by
  refine ⟨?_, ?_, by norm_num⟩
  · norm_num [calculate_stability]
  · norm_num [stabilitySpec, pymean]

/-- Claim C8 as amended: the stability field equals
`clamp(100 - 100*stdev/mean, 0, 100)` only for windows with at least 5
samples and positive mean; for windows of 3 or 4 samples, and for
non-positive mean (where the claim asserted stability 100), the code
returns `0`. -/
theorem stability_characterization (rpm_values : List ℚ) (std_rpm : ℚ) :
    (5 ≤ rpm_values.length → 0 < pymean rpm_values →
      calculate_stability rpm_values std_rpm = stabilitySpec rpm_values std_rpm) ∧
    (rpm_values.length < 5 ∨ pymean rpm_values ≤ 0 →
      calculate_stability rpm_values std_rpm = 0) := by
  have hclamp : ∀ x : ℚ, min 100 (max 0 x) = max 0 (min 100 x) := by
    intro x
    simp only [min_def, max_def]
    split_ifs <;> linarith
  constructor
  · intro h5 hm
    unfold calculate_stability stabilitySpec
    rw [if_neg (by omega)]
    dsimp only
    rw [if_pos hm, if_neg (ne_of_gt hm)]
    rw [hclamp]
    congr 2
    ring
  · intro h
    unfold calculate_stability
    dsimp only
    rcases h with h | h
    · rw [if_pos h]
    · split_ifs with h5 hm
      · rfl
      · linarith
      · rfl

/-- Witness for the amended C8 on a constant 5-sample window. -/
theorem stability_characterization_witness :
    calculate_stability [10, 10, 10, 10, 10] 0 =
      stabilitySpec [10, 10, 10, 10, 10] 0 :=
  (stability_characterization [10, 10, 10, 10, 10] 0).1 (by decide)
    (by norm_num [pymean])

/-- Claim C2: the invariant — interval buffer at most 50 entries, RPM
history at most 100 entries, and `current_rpm` either exactly `0` or
inside `[rpm_min, rpm_max]` — holds in the initial state and is preserved
by every operation (pulse callback, estimator tick, stall-monitor tick,
statistics read, filter call). -/
theorem motor_invariant (cfg : MotorConfig) :
    MotorInv cfg initMotorState ∧
      ∀ (op : Op) (s : MotorState), MotorInv cfg s → MotorInv cfg (step cfg op s) := by
  constructor
  · exact ⟨by simp [initMotorState], by simp [initMotorState], Or.inl rfl⟩
  · rintro op s ⟨h1, h2, h3⟩
    cases op with
    | pulse t =>
      show MotorInv cfg (pulse_callback cfg t s)
      unfold pulse_callback
      dsimp only
      split_ifs <;>
        exact ⟨by first | exact dequeAppend_length_le 50 _ _ | exact h1, h2, h3⟩
    | estimate now =>
      show MotorInv cfg (calculate_rpm cfg now s)
      unfold calculate_rpm
      dsimp only
      split_ifs <;>
        first
          | exact ⟨h1, h2, h3⟩
          | exact ⟨h1, h2, Or.inl rfl⟩
          | (rename_i hr; exact ⟨h1, dequeAppend_length_le 100 _ _, Or.inr hr⟩)
    | monitorTick now =>
      show MotorInv cfg (monitor_stopped now s)
      unfold monitor_stopped
      split_ifs
      · exact ⟨by simp, h2, Or.inl rfl⟩
      · exact ⟨h1, h2, h3⟩
    | readStats => exact ⟨h1, h2, h3⟩
    | filterCall raw => exact ⟨h1, h2, h3⟩

/-- Witness for C2: the invariant holds after a pulse operation on the
initial state of a concretely configured reader. -/
theorem motor_invariant_witness :
    MotorInv (mkMotorConfig 1000 0 6000)
      (step (mkMotorConfig 1000 0 6000) (Op.pulse 1) initMotorState) :=
  (motor_invariant (mkMotorConfig 1000 0 6000)).2 (Op.pulse 1) initMotorState
    (by decide)

/-- Iterating a filter step from a state `f` that reaches a fixed point
`g` in one call keeps returning `g`. -/
theorem runConstant_succ_of_fix (f g : RPMFilter) (r : ℚ)
    (h1 : (f.filter r).2 = g) (hg : (g.filter r).2 = g) :
    ∀ m : ℕ, f.runConstant r (m + 1) = g := by
  intro m
  induction m with
  | zero => simpa [RPMFilter.runConstant] using h1
  | succ k ih =>
    show ((f.runConstant r (k + 1)).filter r).2 = g
    rw [ih, hg]

/-- Counterexample to claim C9: on a fresh default filter
(`alpha = 1/10`, `deadband = 5`) the constant input `3` (nonzero, inside
the deadband) returns `0` and leaves the state exactly at the fresh
state, so every subsequent call with `3` also returns `0`: the smoothed
value never converges to `3`. -/
theorem filter_deadband_stuck_cex :
    (RPMFilter.mkInit (1/10) 5).filter 3 = (0, RPMFilter.mkInit (1/10) 5) ∧
      (0 : ℚ) ≠ 3 := by
  constructor
  · norm_num [RPMFilter.filter, RPMFilter.mkInit]
  · norm_num

/-- Claim C9 as amended: feeding a constant `r` to a fresh filter makes
every call (from the first on) return exactly `r` when `|r| ≥ deadband`
or `r = 0`; but when `0 < |r| < deadband` the deadband pins every
returned value at `0`, so the smoothed value never converges to `r`. -/
theorem filter_constant_stream (alpha deadband r : ℚ) (n : ℕ) (hn : 1 ≤ n) :
    ((deadband ≤ |r| ∨ r = 0) →
      ((RPMFilter.mkInit alpha deadband).runConstant r n).filtered_rpm = r) ∧
    (0 < |r| ∧ |r| < deadband →
      ((RPMFilter.mkInit alpha deadband).runConstant r n).filtered_rpm = 0) := by
  obtain ⟨m, rfl⟩ : ∃ m, n = m + 1 := ⟨n - 1, by omega⟩
  constructor
  · rintro (hd | rfl)
    · by_cases hr : r = 0
      · subst hr
        have hfix : ((RPMFilter.mkInit alpha deadband).filter 0).2 =
            RPMFilter.mkInit alpha deadband := by
          simp [RPMFilter.filter, RPMFilter.mkInit]
        rw [runConstant_succ_of_fix _ _ _ hfix hfix]
        rfl
      · have hnlt : ¬ |r| < deadband := not_lt.mpr hd
        have h1 : ((RPMFilter.mkInit alpha deadband).filter r).2 =
            RPMFilter.mk alpha deadband r r := by
          simp [RPMFilter.filter, RPMFilter.mkInit, hnlt]
        have hg : ((RPMFilter.mk alpha deadband r r).filter r).2 =
            RPMFilter.mk alpha deadband r r := by
          unfold RPMFilter.filter
          dsimp only
          rw [sub_self, abs_zero]
          have hraw : (if (0 : ℚ) < deadband then r else r) = r := by
            split <;> rfl
          rw [hraw, if_neg hr]
          have hsm : alpha * r + (1 - alpha) * r = r := by ring
          rw [hsm]
        rw [runConstant_succ_of_fix _ _ _ h1 hg]
    · have hfix : ((RPMFilter.mkInit alpha deadband).filter 0).2 =
          RPMFilter.mkInit alpha deadband := by
        simp [RPMFilter.filter, RPMFilter.mkInit]
      rw [runConstant_succ_of_fix _ _ _ hfix hfix]
      rfl
  · rintro ⟨hpos, hlt⟩
    have hfix : ((RPMFilter.mkInit alpha deadband).filter r).2 =
        RPMFilter.mkInit alpha deadband := by
      simp [RPMFilter.filter, RPMFilter.mkInit, hlt]
    rw [runConstant_succ_of_fix _ _ _ hfix hfix]
    rfl

/-- Witness for the amended C9: constant input `10` on a fresh filter
with deadband `5` gives exactly `10` after two calls. -/
theorem filter_constant_stream_witness :
    ((RPMFilter.mkInit (1/10) 5).runConstant 10 2).filtered_rpm = 10 :=
  (filter_constant_stream (1/10) 5 10 2 (by norm_num)).1 (Or.inl (by norm_num))

/-- The code's conditional window selection (`intervals[-10:]` when at
least 10 intervals are buffered, the whole buffer otherwise) always
equals dropping all but the last 10. -/
theorem window_select_eq (l : List ℚ) :
    (if 10 ≤ l.length then l.drop (l.length - 10) else l) = l.drop (l.length - 10) := by
  split
  · rfl
  · rename_i h10
    rw [Nat.sub_eq_zero_of_le (by omega), List.drop_zero]

/-- A buffer with at least 3 intervals yields a nonempty working
window. -/
theorem window_ne_nil (l : List ℚ) (h : 3 ≤ l.length) :
    l.drop (l.length - 10) ≠ [] := by
  rw [ne_eq, List.drop_eq_nil_iff]
  omega

/-- Claim C1: on every estimator tick with at least 3 buffered intervals,
`_calculate_rpm` computes exactly what the specification's reference
definition prescribes — most recent 10 intervals (or all if fewer), IQR
outlier rejection for windows of at least 5 falling back to the unfiltered
window when filtering would empty it, median of the final window,
`rpm = (1/median)*60/ppr`, and acceptance (setting `current_rpm` and
appending to the history) exactly when `rpm_min ≤ rpm ≤ rpm_max` with
`current_rpm` unchanged on rejection. -/
theorem calculate_rpm_refines_spec (cfg : MotorConfig) (now : ℚ) (s : MotorState)
    (h : 3 ≤ s.pulse_intervals.length) :
    calculate_rpm cfg now s = estimatorTickSpec cfg s := by
  have hne := window_ne_nil s.pulse_intervals h
  unfold calculate_rpm estimatorTickSpec
  rw [if_pos h]
  dsimp only
  rw [window_select_eq]
  set w := s.pulse_intervals.drop (s.pulse_intervals.length - 10) with hw
  have hXY : (if 5 ≤ w.length then (if iqrFilter w ≠ [] then iqrFilter w else w) else w)
      = (if 5 ≤ w.length then (if iqrFilter w = [] then w else iqrFilter w) else w) := by
    by_cases h5 : 5 ≤ w.length
    · rw [if_pos h5, if_pos h5, ite_not]
    · rw [if_neg h5, if_neg h5]
  rw [hXY]
  have hYne : (if 5 ≤ w.length then (if iqrFilter w = [] then w else iqrFilter w) else w)
      ≠ [] := by
    by_cases h5 : 5 ≤ w.length
    · rw [if_pos h5]
      by_cases hk : iqrFilter w = []
      · rw [if_pos hk]
        exact hne
      · rw [if_neg hk]
        exact hk
    · rw [if_neg h5]
      exact hne
  rw [if_pos hYne]

/-- Witness for C1 on a concrete buffer of three equal intervals. -/
theorem calculate_rpm_refines_spec_witness :
    calculate_rpm (mkMotorConfig 1000 0 6000) 0
        { pulse_intervals := [1/100, 1/100, 1/100], rpm_history := [],
          last_pulse_time := 1, current_rpm := 0 } =
      estimatorTickSpec (mkMotorConfig 1000 0 6000)
        { pulse_intervals := [1/100, 1/100, 1/100], rpm_history := [],
          last_pulse_time := 1, current_rpm := 0 } :=
  calculate_rpm_refines_spec (mkMotorConfig 1000 0 6000) 0
    { pulse_intervals := [1/100, 1/100, 1/100], rpm_history := [],
      last_pulse_time := 1, current_rpm := 0 } (by decide)

end ReadMotorStatus
